import Mathlib

/-!
Verification of the visitor/rewriter dispatch layer of
`torch/csrc/jit/codegen/cuda/dispatch.h` (tensor-fusion IR dispatch).

The header declares four dispatch strategies over a closed IR node
taxonomy rooted at `Statement` (with `Val` and `Expr` subfamilies):

* `OptOutDispatch`      - read-only visitor, concrete defaults are no-ops;
* `OptInConstDispatch`  - read-only visitor over const nodes, concrete
                          defaults fail with "Handle not overriden for K";
* `OptInDispatch`       - read-only visitor, same failing defaults;
* `OptOutMutator`       - rewriter, concrete defaults are the identity
                          rewrite (bodies in mutator.cpp);
* `OptInMutator`        - rewriter, concrete defaults fail with
                          "Mutate not overriden for K".

The abstract-level handlers (`Statement`, `Val`, `Expr`) are declared in
the header but their bodies (the two-hop routing) live in dispatch.cpp,
which is not part of the sources at hand; those routing bodies, the
`OptOutMutator` concrete defaults and the whole-fusion entry point are
modelled from the specification, as marked on each definition.

Pointers are modelled by node values carrying a numeric object identity
(`id`); reference equality is equality of the node value including its
`id`, and a freshly constructed node receives an unused `id` from a
counter threaded through the mutator.
-/

namespace Fuser

/-- Discriminant of a concrete `Val` kind.  `unknownVal` models a
discriminant value the router does not enumerate (taxonomy/router out of
sync). -/
inductive ValType where
  | IterDomain
  | TensorDomain
  | TensorView
  | Float
  | Int
  | unknownVal (tag : Nat)
deriving DecidableEq

/-- Discriminant of a concrete `Expr` kind.  `unknownExpr` models a
discriminant value the router does not enumerate. -/
inductive ExprType where
  | Split
  | Merge
  | Reorder
  | UnaryOp
  | BinaryOp
  | unknownExpr (tag : Nat)
deriving DecidableEq

/-- The discriminant carried by every `Statement`: each node is exactly
one of `Val` or `Expr` (disjoint families). -/
inductive StmtType where
  | val (t : ValType)
  | expr (t : ExprType)
deriving DecidableEq

/-- The ten enumerated concrete node kinds of the IR. -/
inductive Kind where
  | IterDomain
  | TensorDomain
  | TensorView
  | Float
  | Int
  | Split
  | Merge
  | Reorder
  | UnaryOp
  | BinaryOp
deriving DecidableEq

/-- An IR node: object identity `id`, kind discriminant `ty`, and the
node's constituents (operands / component values) as `children`.
The concrete definitions of the node kinds are external to dispatch.h;
only identity, discriminant and the constituent list matter to the
dispatch layer. -/
inductive Statement where
  | mk (id : Nat) (ty : StmtType) (children : List Statement)

mutual

/-- Boolean structural (and, ids included, referential) equality. -/
def Statement.beq : Statement → Statement → Bool
  | .mk i t c, .mk j u d => i == j && (t == u) && Statement.beqList c d

def Statement.beqList : List Statement → List Statement → Bool
  | [], [] => true
  | a :: as, b :: bs => Statement.beq a b && Statement.beqList as bs
  | _, _ => false

end

def Statement.id : Statement → Nat
  | .mk i _ _ => i

def Statement.ty : Statement → StmtType
  | .mk _ t _ => t

def Statement.children : Statement → List Statement
  | .mk _ _ c => c

/-- The concrete kind named by a `Val` discriminant, if enumerated. -/
def ValType.kind? : ValType → Option Kind
  | .IterDomain => some .IterDomain
  | .TensorDomain => some .TensorDomain
  | .TensorView => some .TensorView
  | .Float => some .Float
  | .Int => some .Int
  | .unknownVal _ => none

/-- The concrete kind named by an `Expr` discriminant, if enumerated. -/
def ExprType.kind? : ExprType → Option Kind
  | .Split => some .Split
  | .Merge => some .Merge
  | .Reorder => some .Reorder
  | .UnaryOp => some .UnaryOp
  | .BinaryOp => some .BinaryOp
  | .unknownExpr _ => none

/-- The concrete kind of a statement discriminant, if enumerated. -/
def StmtType.kind? : StmtType → Option Kind
  | .val t => t.kind?
  | .expr t => t.kind?

/-- Whether the discriminant places the node in the `Val` family. -/
def StmtType.isVal : StmtType → Bool
  | .val _ => true
  | .expr _ => false

/-- Whether the discriminant places the node in the `Expr` family. -/
def StmtType.isExpr : StmtType → Bool
  | .val _ => false
  | .expr _ => true

mutual

/-- A node and all of its constituents carry enumerated discriminants. -/
def Statement.wf : Statement → Bool
  | .mk _ ty children => ty.kind?.isSome && wfList children

/-- All statements in the list are well formed. -/
def wfList : List Statement → Bool
  | [] => true
  | s :: ss => Statement.wf s && wfList ss

end

/-- Failures of the read-only dispatch strategies: the router saw a
discriminant it does not enumerate, or an opt-in strategy reached a
concrete handler the subclass did not override (carrying the offending
kind, as in "Handle not overriden for K."). -/
inductive DispatchError where
  | UnknownNodeKind
  | HandlerNotOverridden (k : Kind)
deriving DecidableEq

/-- Failures of the mutator strategies, mirroring `DispatchError`
("Mutate not overriden for K."). -/
inductive MutatorError where
  | UnknownNodeKind
  | MutatorNotOverridden (k : Kind)
deriving DecidableEq

/-- An observable side effect performed by a subclass override (the
default handlers of the permissive visitor perform none). -/
structure Event where
  tag : Nat
  node : Nat
deriving DecidableEq

/-- Result of a read-only visit: an error, or the trace of side effects
performed by overridden handlers. -/
abbrev VisR := Except DispatchError (List Event)

/-- Result of a mutation: threading a fresh-object-id counter, an error
or the resulting statement together with the updated counter. -/
abbrev MutR := Nat → Except MutatorError (Statement × Nat)

namespace Router

/-- The overridable handler surface of one strategy instance, one field
per virtual handler of the C++ class: `none` means the subclass did not
override the handler, so the strategy default applies.  An abstract-level
override receives, besides the node, the result of the base-class
routing at that node (modelling an explicit `Base::handle(x)` forward
call), which it may use or ignore. -/
structure Dispatcher (R : Type) where
  hStatement : Option (R → Statement → R) := none
  hVal : Option (R → Statement → R) := none
  hExpr : Option (R → Statement → R) := none
  hIterDomain : Option (Statement → R) := none
  hTensorDomain : Option (Statement → R) := none
  hTensorView : Option (Statement → R) := none
  hFloat : Option (Statement → R) := none
  hInt : Option (Statement → R) := none
  hSplit : Option (Statement → R) := none
  hMerge : Option (Statement → R) := none
  hReorder : Option (Statement → R) := none
  hUnaryOp : Option (Statement → R) := none
  hBinaryOp : Option (Statement → R) := none

variable {R : Type}

/-- The subclass with no overrides at all. -/
def Dispatcher.empty : Dispatcher R := {}

/-- The concrete-kind override slot named by a kind. -/
def Dispatcher.concreteOverride (d : Dispatcher R) : Kind → Option (Statement → R)
  | .IterDomain => d.hIterDomain
  | .TensorDomain => d.hTensorDomain
  | .TensorView => d.hTensorView
  | .Float => d.hFloat
  | .Int => d.hInt
  | .Split => d.hSplit
  | .Merge => d.hMerge
  | .Reorder => d.hReorder
  | .UnaryOp => d.hUnaryOp
  | .BinaryOp => d.hBinaryOp

/-- What distinguishes the strategies: the behavior when the router
meets a non-enumerated discriminant, and the default body of each
concrete-kind handler. -/
structure Strategy (R : Type) where
  onUnknown : Statement → R
  defaultConcrete : Kind → Statement → R

/-- Concrete-level dispatch: the subclass override if present, else the
strategy's default handler for that kind. -/
def runConcrete (st : Strategy R) (d : Dispatcher R) (k : Kind) (s : Statement) : R :=
  match d.concreteOverride k with
  | some f => f s
  | none => st.defaultConcrete k s

/-- Modelled from the spec: the body of the `Val`-level routing hop
(declared in dispatch.h, defined in dispatch.cpp which is absent from
the sources): inspect the `Val` discriminant and forward to the concrete
handler, failing on a non-enumerated discriminant. -/
def routeVal (st : Strategy R) (d : Dispatcher R) (s : Statement) : R :=
  match s.ty with
  | .val t =>
    match t.kind? with
    | some k => runConcrete st d k s
    | none => st.onUnknown s
  | .expr _ => st.onUnknown s

/-- Modelled from the spec: the body of the `Expr`-level routing hop
(declared in dispatch.h, defined in dispatch.cpp which is absent from
the sources). -/
def routeExpr (st : Strategy R) (d : Dispatcher R) (s : Statement) : R :=
  match s.ty with
  | .expr t =>
    match t.kind? with
    | some k => runConcrete st d k s
    | none => st.onUnknown s
  | .val _ => st.onUnknown s

/-- The `Val` abstract-level handler: the subclass override (given the
base routing result to optionally forward to) or the default routing. -/
def handleVal (st : Strategy R) (d : Dispatcher R) (s : Statement) : R :=
  match d.hVal with
  | some f => f (routeVal st d s) s
  | none => routeVal st d s

/-- The `Expr` abstract-level handler. -/
def handleExpr (st : Strategy R) (d : Dispatcher R) (s : Statement) : R :=
  match d.hExpr with
  | some f => f (routeExpr st d s) s
  | none => routeExpr st d s

/-- Modelled from the spec: the body of the `Statement`-level routing
hop: decide `Val` vs `Expr` from the discriminant and forward to the
middle-level handler. -/
def routeStatement (st : Strategy R) (d : Dispatcher R) (s : Statement) : R :=
  match s.ty with
  | .val _ => handleVal st d s
  | .expr _ => handleExpr st d s

/-- The `Statement`-level entry point of a strategy: the subclass
override (given the base routing result) or the default routing. -/
def handle (st : Strategy R) (d : Dispatcher R) (s : Statement) : R :=
  match d.hStatement with
  | some f => f (routeStatement st d s) s
  | none => routeStatement st d s

end Router

open Router

namespace OptOutDispatch

/-- `OptOutDispatch`: every concrete-kind default handler has an empty
body (dispatch.h lines 90-101), so it produces no events; the router
fails on a non-enumerated discriminant (modelled from the spec). -/
def strategy : Strategy VisR where
  onUnknown := fun _ => .error .UnknownNodeKind
  defaultConcrete := fun _ _ => .ok []

/-- The `Statement`-level entry point of `OptOutDispatch`. -/
def handle (d : Dispatcher VisR) (s : Statement) : VisR :=
  Router.handle strategy d s

/-- The empty body of each concrete-kind default handler of
`OptOutDispatch` (dispatch.h lines 90-101), taken at the pointer level:
the argument may be null (`none`) and the body never reads it. -/
def concreteDefaultBody (k : Kind) (arg : Option Statement) : VisR := .ok []

end OptOutDispatch

namespace OptInConstDispatch

/-- `OptInConstDispatch`: every concrete-kind default handler fails with
"Handle not overriden for K." (dispatch.h lines 120-151); the router
fails on a non-enumerated discriminant (modelled from the spec). -/
def strategy : Strategy VisR where
  onUnknown := fun _ => .error .UnknownNodeKind
  defaultConcrete := fun k _ => .error (.HandlerNotOverridden k)

/-- The `Statement`-level entry point of `OptInConstDispatch`. -/
def handle (d : Dispatcher VisR) (s : Statement) : VisR :=
  Router.handle strategy d s

end OptInConstDispatch

namespace OptInDispatch

/-- `OptInDispatch`: every concrete-kind default handler fails with
"Handle not overriden for K." (dispatch.h lines 170-201); the router
fails on a non-enumerated discriminant (modelled from the spec). -/
def strategy : Strategy VisR where
  onUnknown := fun _ => .error .UnknownNodeKind
  defaultConcrete := fun k _ => .error (.HandlerNotOverridden k)

/-- The `Statement`-level entry point of `OptInDispatch`. -/
def handle (d : Dispatcher VisR) (s : Statement) : VisR :=
  Router.handle strategy d s

end OptInDispatch

namespace OptInMutator

/-- `OptInMutator`: every concrete-kind default mutator fails with
"Mutate not overriden for K." (dispatch.h lines 253-284); the router
fails on a non-enumerated discriminant (modelled from the spec). -/
def strategy : Strategy MutR where
  onUnknown := fun _ _ => .error .UnknownNodeKind
  defaultConcrete := fun k _ _ => .error (.MutatorNotOverridden k)

/-- The `Statement`-level entry point of `OptInMutator`. -/
def mutate (d : Dispatcher MutR) (s : Statement) : MutR :=
  Router.handle strategy d s

end OptInMutator

namespace OptOutMutator

/-- Modelled from the spec: one step of the identity rewrite of a node
`mk sid ty children` (the `OptOutMutator` concrete-kind defaults are
declared in dispatch.h lines 223-234 but defined in mutator.cpp, which
is absent from the sources): mutate the constituents via `mutKids`; if
none changed, return the original node (same reference), otherwise
construct a new node (fresh object id from the counter) of the same kind
composed from the rewritten pieces. -/
def identityStep (sid : Nat) (ty : StmtType) (children : List Statement)
    (mutKids : Nat → Except MutatorError (List Statement × Nat)) : MutR := fun n =>
  match mutKids n with
  | .error e => .error e
  | .ok (children', n') =>
    if Statement.beqList children' children = true then .ok (.mk sid ty children, n')
    else .ok (.mk n' ty children', n' + 1)

/-- The strategy `OptOutMutator` presents at a node `mk sid ty children`:
router failure on a non-enumerated discriminant, identity rewrite as the
default of every concrete-kind mutator. -/
def localStrategy (sid : Nat) (ty : StmtType) (children : List Statement)
    (mutKids : Nat → Except MutatorError (List Statement × Nat)) : Strategy MutR where
  onUnknown := fun _ _ => .error .UnknownNodeKind
  defaultConcrete := fun _ _ => identityStep sid ty children mutKids

mutual

/-- The `Statement`-level entry point of `OptOutMutator`: the shared
two-hop routing, with the recursive identity rewrite as the concrete
default. -/
def mutate (d : Dispatcher MutR) : Statement → MutR
  | .mk sid ty children =>
    Router.handle (localStrategy sid ty children (mutateList d children)) d
      (.mk sid ty children)

/-- Mutate a list of statements left to right, threading the fresh-id
counter. -/
def mutateList (d : Dispatcher MutR) : List Statement → Nat → Except MutatorError (List Statement × Nat)
  | [], n => .ok ([], n)
  | c :: cs, n =>
    match mutate d c n with
    | .error e => .error e
    | .ok (c', n') =>
      match mutateList d cs n' with
      | .error e => .error e
      | .ok (cs', n'') => .ok (c' :: cs', n'')

end

end OptOutMutator

/-- The container aggregating the IR nodes of one compilation unit, with
its statements in declared order.  (External collaborator of dispatch.h;
only the statement sequence matters to the dispatch layer.) -/
structure Fusion where
  stmts : List Statement

namespace OptOutMutator

/-- Modelled from the spec: the whole-`Fusion` entry point declared at
dispatch.h line 214 (`virtual void mutate(Fusion*)`, body absent from
the sources): iterate the fusion's statements in declared order and
replace each with the result of mutating it; the replacement itself is
the fusion's responsibility, here modelled as the fusion holding the
replaced statement sequence. -/
def mutateFusion (d : Dispatcher MutR) (fus : Fusion) : Nat → Except MutatorError (Fusion × Nat) :=
  fun n =>
    match mutateList d fus.stmts n with
    | .error e => .error e
    | .ok (ss, n') => .ok (⟨ss⟩, n')

/-- The spec's description of the iteration, stated independently as a
monadic left-to-right traversal in the state-threading error monad:
mutate the statements in declared order via `List.mapM`. -/
def mutateListSpec (d : Dispatcher MutR) (ss : List Statement) :
    StateT Nat (Except MutatorError) (List Statement) :=
  ss.mapM (fun s => mutate d s)

/-- The whole-fusion traversal, stated in the spec's terms via
`mutateListSpec`. -/
def mutateFusionSpec (d : Dispatcher MutR) (fus : Fusion) :
    StateT Nat (Except MutatorError) Fusion := do
  let ss ← mutateListSpec d fus.stmts
  pure ⟨ss⟩

end OptOutMutator

/-- The member-function surface a strategy class declares, per
dispatch.h: one entry per declared `handle`/`mutate` overload. -/
inductive EntryPoint where
  | fusion
  | statement
  | expr
  | val
  | concrete (k : Kind)
deriving DecidableEq

/-- All ten concrete-kind entries, in the order dispatch.h declares the
concrete handlers (Vals then Exprs). -/
def concreteEntries : List EntryPoint :=
  [.concrete .IterDomain, .concrete .TensorDomain, .concrete .TensorView,
   .concrete .Float, .concrete .Int,
   .concrete .Split, .concrete .Merge, .concrete .Reorder,
   .concrete .UnaryOp, .concrete .BinaryOp]

/-- Declared surface of `OptOutDispatch` (dispatch.h lines 85-101). -/
def OptOutDispatch.surface : List EntryPoint :=
  [.statement, .expr, .val] ++ concreteEntries

/-- Declared surface of `OptInConstDispatch` (dispatch.h lines 115-151). -/
def OptInConstDispatch.surface : List EntryPoint :=
  [.statement, .expr, .val] ++ concreteEntries

/-- Declared surface of `OptInDispatch` (dispatch.h lines 165-201). -/
def OptInDispatch.surface : List EntryPoint :=
  [.statement, .expr, .val] ++ concreteEntries

/-- Declared surface of `OptOutMutator` (dispatch.h lines 214-234):
note the whole-fusion entry point `mutate(Fusion*)` at line 214. -/
def OptOutMutator.surface : List EntryPoint :=
  [.fusion, .statement, .expr, .val] ++ concreteEntries

/-- Declared surface of `OptInMutator` (dispatch.h lines 248-284): only
`Statement`/`Expr`/`Val` and the concrete kinds; the header declares no
`mutate(Fusion*)` member for this class. -/
def OptInMutator.surface : List EntryPoint :=
  [.statement, .expr, .val] ++ concreteEntries

/-! Basic laws of the boolean node equality. -/

mutual

theorem Statement.beq_refl : ∀ a : Statement, Statement.beq a a = true
  | .mk _ _ c => by
    simp [Statement.beq, Statement.beqList_refl c]

theorem Statement.beqList_refl : ∀ as : List Statement, Statement.beqList as as = true
  | [] => rfl
  | a :: as => by
    simp only [Statement.beqList, Bool.and_eq_true]
    exact ⟨Statement.beq_refl a, Statement.beqList_refl as⟩

end

mutual

theorem Statement.eq_of_beq : ∀ {a b : Statement}, Statement.beq a b = true → a = b
  | .mk _ _ _, .mk _ _ _, h => by
    simp only [Statement.beq, Bool.and_eq_true, beq_iff_eq] at h
    obtain ⟨⟨hi, ht⟩, hc⟩ := h
    exact hi ▸ ht ▸ (Statement.eqList_of_beq hc) ▸ rfl

theorem Statement.eqList_of_beq : ∀ {as bs : List Statement},
    Statement.beqList as bs = true → as = bs
  | [], [], _ => rfl
  | _ :: _, _ :: _, h => by
    simp only [Statement.beqList, Bool.and_eq_true] at h
    exact (Statement.eq_of_beq h.1) ▸ (Statement.eqList_of_beq h.2) ▸ rfl

end

/-! Routing lemmas for the shared two-hop router. -/

namespace Router

variable {R : Type}

theorem concreteOverride_empty (k : Kind) :
    (Dispatcher.empty : Dispatcher R).concreteOverride k = none := by
  cases k <;> rfl

theorem handle_default_routes (st : Strategy R) (d : Dispatcher R) (k : Kind) (s : Statement)
    (h1 : d.hStatement = none) (h2 : d.hVal = none) (h3 : d.hExpr = none)
    (hk : s.ty.kind? = some k) :
    handle st d s = runConcrete st d k s := by
  obtain ⟨i, ty, cs⟩ := s
  cases ty with
  | val t =>
    simp only [Statement.ty, StmtType.kind?] at hk
    simp [handle, routeStatement, handleVal, routeVal, Statement.ty, h1, h2, hk]
  | expr t =>
    simp only [Statement.ty, StmtType.kind?] at hk
    simp [handle, routeStatement, handleExpr, routeExpr, Statement.ty, h1, h3, hk]

theorem handle_empty_default (st : Strategy R) (s : Statement) (k : Kind)
    (hk : s.ty.kind? = some k) :
    handle st Dispatcher.empty s = st.defaultConcrete k s := by
  rw [handle_default_routes st Dispatcher.empty k s rfl rfl rfl hk]
  simp [runConcrete, concreteOverride_empty]

theorem handle_val_override (st : Strategy R) (d : Dispatcher R) (f : R → Statement → R)
    (s : Statement) (h1 : d.hStatement = none) (h2 : d.hVal = some f)
    (hv : s.ty.isVal = true) :
    handle st d s = f (routeVal st d s) s := by
  obtain ⟨i, ty, cs⟩ := s
  cases ty with
  | val t => simp [handle, routeStatement, handleVal, Statement.ty, h1, h2]
  | expr t => simp [Statement.ty, StmtType.isVal] at hv

theorem handle_expr_override (st : Strategy R) (d : Dispatcher R) (f : R → Statement → R)
    (s : Statement) (h1 : d.hStatement = none) (h2 : d.hExpr = some f)
    (hv : s.ty.isExpr = true) :
    handle st d s = f (routeExpr st d s) s := by
  obtain ⟨i, ty, cs⟩ := s
  cases ty with
  | val t => simp [Statement.ty, StmtType.isExpr] at hv
  | expr t => simp [handle, routeStatement, handleExpr, Statement.ty, h1, h2]

theorem handle_val_override_independent (st : Strategy R) (d d' : Dispatcher R)
    (f : R → Statement → R) (s : Statement)
    (h1 : d.hStatement = none) (h1' : d'.hStatement = none)
    (h2 : d.hVal = some f) (h2' : d'.hVal = some f)
    (hf : ∀ x y t, f x t = f y t) (hv : s.ty.isVal = true) :
    handle st d s = handle st d' s := by
  rw [handle_val_override st d f s h1 h2 hv, handle_val_override st d' f s h1' h2' hv]
  exact hf _ _ s

theorem handle_expr_override_independent (st : Strategy R) (d d' : Dispatcher R)
    (f : R → Statement → R) (s : Statement)
    (h1 : d.hStatement = none) (h1' : d'.hStatement = none)
    (h2 : d.hExpr = some f) (h2' : d'.hExpr = some f)
    (hf : ∀ x y t, f x t = f y t) (hv : s.ty.isExpr = true) :
    handle st d s = handle st d' s := by
  rw [handle_expr_override st d f s h1 h2 hv, handle_expr_override st d' f s h1' h2' hv]
  exact hf _ _ s

theorem handle_unknown (st : Strategy R) (d : Dispatcher R) (s : Statement)
    (h1 : d.hStatement = none) (h2 : d.hVal = none) (h3 : d.hExpr = none)
    (hk : s.ty.kind? = none) :
    handle st d s = st.onUnknown s := by
  obtain ⟨i, ty, cs⟩ := s
  cases ty with
  | val t =>
    simp only [Statement.ty, StmtType.kind?] at hk
    simp [handle, routeStatement, handleVal, routeVal, Statement.ty, h1, h2, hk]
  | expr t =>
    simp only [Statement.ty, StmtType.kind?] at hk
    simp [handle, routeStatement, handleExpr, routeExpr, Statement.ty, h1, h3, hk]

end Router

/-! Lemmas about the identity-default mutator. -/

namespace OptOutMutator

theorem mutate_mk (d : Dispatcher MutR) (sid : Nat) (ty : StmtType)
    (children : List Statement) :
    mutate d (.mk sid ty children)
      = Router.handle (localStrategy sid ty children (mutateList d children)) d
          (.mk sid ty children) := by
  rw [mutate]

mutual

theorem mutate_empty_id : ∀ (s : Statement), Statement.wf s = true →
    ∀ n : Nat, mutate Dispatcher.empty s n = .ok (s, n)
  | .mk sid ty cs, hw, n => by
    simp only [Statement.wf, Bool.and_eq_true, Option.isSome_iff_exists] at hw
    obtain ⟨⟨k, hk⟩, hcs⟩ := hw
    rw [mutate_mk, Router.handle_empty_default _ _ k (by simpa [Statement.ty] using hk)]
    simp only [localStrategy, identityStep]
    rw [mutateList_empty_id cs hcs n]
    simp [Statement.beqList_refl]

theorem mutateList_empty_id : ∀ (l : List Statement), wfList l = true →
    ∀ n : Nat, mutateList Dispatcher.empty l n = .ok (l, n)
  | [], _, _ => rfl
  | c :: cs, hw, n => by
    simp only [wfList, Bool.and_eq_true] at hw
    simp only [mutateList, mutate_empty_id c hw.1 n]
    simp [mutateList_empty_id cs hw.2 n]

end

theorem stateT_bind_apply {α β : Type} (x : StateT Nat (Except MutatorError) α)
    (f : α → StateT Nat (Except MutatorError) β) (n : Nat) :
    (x >>= f) n = (x n).bind (fun p => f p.1 p.2) := rfl

theorem stateT_pure_apply {α : Type} (a : α) (n : Nat) :
    (pure a : StateT Nat (Except MutatorError) α) n = .ok (a, n) := rfl

theorem mutateList_eq_spec (d : Dispatcher MutR) : ∀ (ss : List Statement) (n : Nat),
    mutateList d ss n = mutateListSpec d ss n
  | [], _ => rfl
  | s :: ss, n => by
    rw [mutateListSpec, List.mapM_cons]
    simp only [mutateList, stateT_bind_apply]
    cases h : mutate d s n with
    | error e => simp [h, Except.bind]
    | ok p =>
      obtain ⟨s', n'⟩ := p
      have ih := mutateList_eq_spec d ss n'
      rw [mutateListSpec] at ih
      simp only [h, Except.bind, stateT_bind_apply, ← ih]
      cases h2 : mutateList d ss n' with
      | error e => simp [Except.bind]
      | ok q => simp [Except.bind, stateT_pure_apply]

theorem mutateFusion_eq_spec (d : Dispatcher MutR) (fus : Fusion) (n : Nat) :
    mutateFusion d fus n = mutateFusionSpec d fus n := by
  rw [mutateFusion, mutateFusionSpec]
  simp only [stateT_bind_apply, ← mutateList_eq_spec d fus.stmts n]
  cases h : mutateList d fus.stmts n with
  | error e => simp [Except.bind]
  | ok p => simp [Except.bind, stateT_pure_apply]

end OptOutMutator

/-! The claims. -/

/-- Claim C1: for every strategy, the abstract-level handlers default to
routing to the next level (Statement to Val/Expr, then to the concrete
kind: first conjunct), and overriding the Val (resp. Expr) abstract-level
handler makes the dispatch result exactly the override's result, the base
routing being available to it only as an explicit forwarding argument
(second and third conjuncts); hence an override that does not forward
makes the result independent of every concrete-kind handler (fourth and
fifth conjuncts).  The last conjunct exhibits `OptOutMutator.mutate` as an
instance of the same router, so the property covers all five strategies. -/
theorem claim_abstract_override_short_circuits :
    (∀ (R : Type) (st : Router.Strategy R) (d : Router.Dispatcher R) (k : Kind) (s : Statement),
      d.hStatement = none → d.hVal = none → d.hExpr = none → s.ty.kind? = some k →
      Router.handle st d s = Router.runConcrete st d k s)
  ∧ (∀ (R : Type) (st : Router.Strategy R) (d : Router.Dispatcher R)
      (f : R → Statement → R) (s : Statement),
      d.hStatement = none → d.hVal = some f → s.ty.isVal = true →
      Router.handle st d s = f (Router.routeVal st d s) s)
  ∧ (∀ (R : Type) (st : Router.Strategy R) (d : Router.Dispatcher R)
      (f : R → Statement → R) (s : Statement),
      d.hStatement = none → d.hExpr = some f → s.ty.isExpr = true →
      Router.handle st d s = f (Router.routeExpr st d s) s)
  ∧ (∀ (R : Type) (st : Router.Strategy R) (d d' : Router.Dispatcher R)
      (f : R → Statement → R) (s : Statement),
      d.hStatement = none → d'.hStatement = none → d.hVal = some f → d'.hVal = some f →
      (∀ x y t, f x t = f y t) → s.ty.isVal = true →
      Router.handle st d s = Router.handle st d' s)
  ∧ (∀ (R : Type) (st : Router.Strategy R) (d d' : Router.Dispatcher R)
      (f : R → Statement → R) (s : Statement),
      d.hStatement = none → d'.hStatement = none → d.hExpr = some f → d'.hExpr = some f →
      (∀ x y t, f x t = f y t) → s.ty.isExpr = true →
      Router.handle st d s = Router.handle st d' s)
  ∧ (∀ (d : Router.Dispatcher MutR) (sid : Nat) (ty : StmtType) (children : List Statement),
      OptOutMutator.mutate d (.mk sid ty children)
        = Router.handle
            (OptOutMutator.localStrategy sid ty children (OptOutMutator.mutateList d children))
            d (.mk sid ty children)) :=
  ⟨fun _ => Router.handle_default_routes,
   fun _ => Router.handle_val_override,
   fun _ => Router.handle_expr_override,
   fun _ => Router.handle_val_override_independent,
   fun _ => Router.handle_expr_override_independent,
   OptOutMutator.mutate_mk⟩

/-- Witness for C1: a concrete `Float` (Val-family) node dispatched under
`OptOutDispatch` whose `Val` handler is overridden to a non-forwarding
function; the result is the override's, even though the concrete `Float`
handler was simultaneously overridden to an error. -/
theorem claim_abstract_override_short_circuits_witness :
    Router.handle OptOutDispatch.strategy
        { hVal := some (fun _ _ => Except.ok [⟨5, 0⟩])
          hFloat := some (fun _ => Except.error .UnknownNodeKind) }
        (Statement.mk 0 (.val .Float) [])
      = Except.ok [⟨5, 0⟩] :=
  claim_abstract_override_short_circuits.2.1 VisR OptOutDispatch.strategy
    { hVal := some (fun _ _ => Except.ok [⟨5, 0⟩])
      hFloat := some (fun _ => Except.error .UnknownNodeKind) }
    (fun _ _ => Except.ok [⟨5, 0⟩]) (Statement.mk 0 (.val .Float) []) rfl rfl rfl

/-- Claim C2: for every concrete kind K, `OptInDispatch` and
`OptInConstDispatch` with no overrides fail on a node of kind K with the
fatal `HandlerNotOverridden` error carrying K. -/
theorem claim_optin_dispatch_defaults_fail (s : Statement) (k : Kind)
    (hk : s.ty.kind? = some k) :
    OptInDispatch.handle Router.Dispatcher.empty s = .error (.HandlerNotOverridden k)
    ∧ OptInConstDispatch.handle Router.Dispatcher.empty s = .error (.HandlerNotOverridden k) :=
  ⟨Router.handle_empty_default OptInDispatch.strategy s k hk,
   Router.handle_empty_default OptInConstDispatch.strategy s k hk⟩

/-- Witness for C2 on a `Split` node. -/
theorem claim_optin_dispatch_defaults_fail_witness :
    (Statement.mk 0 (.expr .Split) []).ty.kind? = some .Split
    ∧ OptInDispatch.handle Router.Dispatcher.empty (.mk 0 (.expr .Split) [])
        = .error (.HandlerNotOverridden .Split)
    ∧ OptInConstDispatch.handle Router.Dispatcher.empty (.mk 0 (.expr .Split) [])
        = .error (.HandlerNotOverridden .Split) :=
  ⟨rfl, claim_optin_dispatch_defaults_fail (.mk 0 (.expr .Split) []) .Split rfl⟩

/-- Claim C3: `OptOutMutator` with no overrides returns, on any
well-formed node, the very same node (same object identity, counter
untouched): the identity rewrite preserves reference equality on the
no-change path. -/
theorem claim_optout_mutator_identity_default (s : Statement)
    (hw : Statement.wf s = true) (n : Nat) :
    OptOutMutator.mutate Router.Dispatcher.empty s n = .ok (s, n) :=
  OptOutMutator.mutate_empty_id s hw n

/-- Witness for C3 on an `IterDomain` node with two `Int` constituents. -/
theorem claim_optout_mutator_identity_default_witness :
    Statement.wf (.mk 3 (.val .IterDomain) [.mk 1 (.val .Int) [], .mk 2 (.val .Int) []]) = true
    ∧ OptOutMutator.mutate Router.Dispatcher.empty
        (.mk 3 (.val .IterDomain) [.mk 1 (.val .Int) [], .mk 2 (.val .Int) []]) 10
      = .ok (.mk 3 (.val .IterDomain) [.mk 1 (.val .Int) [], .mk 2 (.val .Int) []], 10) :=
  ⟨by decide,
   claim_optout_mutator_identity_default
     (.mk 3 (.val .IterDomain) [.mk 1 (.val .Int) [], .mk 2 (.val .Int) []]) (by decide) 10⟩

/-- Claim C4: for every concrete kind K, `OptInMutator` with no overrides
fails on a node of kind K with the fatal `MutatorNotOverridden` error
carrying K; no statement is returned. -/
theorem claim_optin_mutator_defaults_fail (s : Statement) (k : Kind)
    (hk : s.ty.kind? = some k) (n : Nat) :
    OptInMutator.mutate Router.Dispatcher.empty s n = .error (.MutatorNotOverridden k) := by
  show Router.handle OptInMutator.strategy Router.Dispatcher.empty s n = _
  rw [Router.handle_empty_default OptInMutator.strategy s k hk]
  rfl

/-- Witness for C4 on a `TensorView` node. -/
theorem claim_optin_mutator_defaults_fail_witness :
    (Statement.mk 4 (.val .TensorView) []).ty.kind? = some .TensorView
    ∧ OptInMutator.mutate Router.Dispatcher.empty (.mk 4 (.val .TensorView) []) 0
        = .error (.MutatorNotOverridden .TensorView) :=
  ⟨rfl, claim_optin_mutator_defaults_fail (.mk 4 (.val .TensorView) []) .TensorView rfl 0⟩

/-- Claim C5: for every concrete kind K, `OptOutDispatch` with no
overrides returns on a node of kind K without failure and without any
side effect (empty event trace); every concrete-kind default handler is
a no-op. -/
theorem claim_optout_dispatch_default_noop (s : Statement) (k : Kind)
    (hk : s.ty.kind? = some k) :
    OptOutDispatch.handle Router.Dispatcher.empty s = .ok []
    ∧ (∀ (k' : Kind) (s' : Statement),
        OptOutDispatch.strategy.defaultConcrete k' s' = .ok []) :=
  ⟨Router.handle_empty_default OptOutDispatch.strategy s k hk, fun _ _ => rfl⟩

/-- Witness for C5 on a `BinaryOp` node. -/
theorem claim_optout_dispatch_default_noop_witness :
    (Statement.mk 9 (.expr .BinaryOp) []).ty.kind? = some .BinaryOp
    ∧ OptOutDispatch.handle Router.Dispatcher.empty (.mk 9 (.expr .BinaryOp) []) = .ok [] :=
  ⟨rfl, (claim_optout_dispatch_default_noop (.mk 9 (.expr .BinaryOp) []) .BinaryOp rfl).1⟩

/-- Claim C6: round-trip: applying `OptOutMutator` with no overrides to
a well-formed fusion (replacing each statement, in declared order, with
the result of mutating it) yields the fusion unchanged (structural
equality; here even the object identities are preserved). -/
theorem claim_fusion_roundtrip_identity (fus : Fusion) (hw : wfList fus.stmts = true)
    (n : Nat) :
    OptOutMutator.mutateFusion Router.Dispatcher.empty fus n = .ok (fus, n) := by
  simp only [OptOutMutator.mutateFusion, OptOutMutator.mutateList_empty_id fus.stmts hw n]

/-- Witness for C6 on a fusion of a `Split`, a `BinaryOp` and a
`Reorder` node. -/
theorem claim_fusion_roundtrip_identity_witness :
    wfList [Statement.mk 0 (.expr .Split) [], .mk 1 (.expr .BinaryOp) [],
        .mk 2 (.expr .Reorder) []] = true
    ∧ OptOutMutator.mutateFusion Router.Dispatcher.empty
        ⟨[Statement.mk 0 (.expr .Split) [], .mk 1 (.expr .BinaryOp) [],
          .mk 2 (.expr .Reorder) []]⟩ 7
      = .ok (⟨[Statement.mk 0 (.expr .Split) [], .mk 1 (.expr .BinaryOp) [],
          .mk 2 (.expr .Reorder) []]⟩, 7) :=
  ⟨by decide,
   claim_fusion_roundtrip_identity
     ⟨[Statement.mk 0 (.expr .Split) [], .mk 1 (.expr .BinaryOp) [],
       .mk 2 (.expr .Reorder) []]⟩ (by decide) 7⟩

/-- Claim C7: for any strategy, a node whose discriminant does not match
any enumerated concrete kind makes the router itself fail, fatally, with
`UnknownNodeKind`: stated generically over every strategy surface (first
conjunct) and instantiated at the three visitor strategies (second
conjunct) and the two mutator strategies (third conjunct), for every
subclass that keeps the default abstract-level routing, regardless of
its concrete-kind overrides. -/
theorem claim_router_unknown_node_kind :
    (∀ (R : Type) (st : Router.Strategy R) (d : Router.Dispatcher R) (s : Statement),
        d.hStatement = none → d.hVal = none → d.hExpr = none → s.ty.kind? = none →
        Router.handle st d s = st.onUnknown s)
  ∧ (∀ (d : Router.Dispatcher VisR) (s : Statement),
        d.hStatement = none → d.hVal = none → d.hExpr = none → s.ty.kind? = none →
        OptOutDispatch.handle d s = .error .UnknownNodeKind
        ∧ OptInDispatch.handle d s = .error .UnknownNodeKind
        ∧ OptInConstDispatch.handle d s = .error .UnknownNodeKind)
  ∧ (∀ (d : Router.Dispatcher MutR) (s : Statement) (n : Nat),
        d.hStatement = none → d.hVal = none → d.hExpr = none → s.ty.kind? = none →
        OptInMutator.mutate d s n = .error .UnknownNodeKind
        ∧ OptOutMutator.mutate d s n = .error .UnknownNodeKind) := by
  refine ⟨fun _ => Router.handle_unknown, ?_, ?_⟩
  · intro d s h1 h2 h3 hk
    exact ⟨Router.handle_unknown _ d s h1 h2 h3 hk,
           Router.handle_unknown _ d s h1 h2 h3 hk,
           Router.handle_unknown _ d s h1 h2 h3 hk⟩
  · intro d s n h1 h2 h3 hk
    constructor
    · show Router.handle OptInMutator.strategy d s n = _
      rw [Router.handle_unknown _ d s h1 h2 h3 hk]
      rfl
    · obtain ⟨sid, ty, cs⟩ := s
      rw [OptOutMutator.mutate_mk, Router.handle_unknown _ d _ h1 h2 h3 hk]
      rfl

/-- Witness for C7 at a node carrying the non-enumerated `Val`
discriminant tag 99, under all three visitor strategies with no
overrides. -/
theorem claim_router_unknown_node_kind_witness :
    OptOutDispatch.handle Router.Dispatcher.empty (.mk 0 (.val (.unknownVal 99)) [])
      = .error .UnknownNodeKind
    ∧ OptInDispatch.handle Router.Dispatcher.empty (.mk 0 (.val (.unknownVal 99)) [])
      = .error .UnknownNodeKind
    ∧ OptInConstDispatch.handle Router.Dispatcher.empty (.mk 0 (.val (.unknownVal 99)) [])
      = .error .UnknownNodeKind :=
  claim_router_unknown_node_kind.2.1 Router.Dispatcher.empty
    (.mk 0 (.val (.unknownVal 99)) []) rfl rfl rfl rfl

/-- Claim C8: `OptInConstDispatch` has semantics identical to
`OptInDispatch`: the same routing result for every subclass and node,
the same declared handler surface, and the same failing
`HandlerNotOverridden` concrete defaults.  (The remaining difference in
the source, const-qualification of the handler parameters, is a
type-level property of the C++ interface with no behavioral content.) -/
theorem claim_optinconst_dispatch_same_semantics :
    (∀ (d : Router.Dispatcher VisR) (s : Statement),
        OptInConstDispatch.handle d s = OptInDispatch.handle d s)
  ∧ OptInConstDispatch.surface = OptInDispatch.surface
  ∧ (∀ (k : Kind) (s : Statement),
        OptInConstDispatch.strategy.defaultConcrete k s = .error (.HandlerNotOverridden k)
        ∧ OptInDispatch.strategy.defaultConcrete k s = .error (.HandlerNotOverridden k)) :=
  ⟨fun _ _ => rfl, rfl, fun _ _ => ⟨rfl, rfl⟩⟩

/-- Counterexample to C9 as stated: `OptInMutator` declares no
whole-fusion entry point (dispatch.h lines 237-285 declare only the
`Statement`/`Expr`/`Val` and concrete-kind `mutate` overloads). -/
theorem claim_mutators_fusion_entry_counterexample :
    EntryPoint.fusion ∉ OptInMutator.surface := by decide

/-- Claim C9, amended: `OptOutMutator` (alone among the mutator
strategies) exposes a whole-fusion entry point, which iterates the
fusion's statements in declared order and replaces each with the result
of mutating it (stated as equality with the left-to-right monadic
traversal `mutateFusionSpec`); `OptInMutator` exposes no whole-fusion
entry point. -/
theorem claim_mutators_fusion_entry_amended :
    EntryPoint.fusion ∈ OptOutMutator.surface
  ∧ EntryPoint.fusion ∉ OptInMutator.surface
  ∧ (∀ (d : Router.Dispatcher MutR) (fus : Fusion) (n : Nat),
      OptOutMutator.mutateFusion d fus n = OptOutMutator.mutateFusionSpec d fus n) :=
  ⟨by decide, by decide, OptOutMutator.mutateFusion_eq_spec⟩

/-- Claim C10: the concrete-kind default handlers of `OptOutDispatch`
never read their argument: the body is constant in the argument, in
particular it returns normally (no failure, no event) on a null (`none`)
argument, and it is the body the strategy's defaults use. -/
theorem claim_optout_concrete_defaults_never_read_argument :
    (∀ (k : Kind) (a b : Option Statement),
        OptOutDispatch.concreteDefaultBody k a = OptOutDispatch.concreteDefaultBody k b)
  ∧ (∀ k : Kind, OptOutDispatch.concreteDefaultBody k none = .ok [])
  ∧ (∀ (k : Kind) (s : Statement),
        OptOutDispatch.strategy.defaultConcrete k s
          = OptOutDispatch.concreteDefaultBody k (some s)) :=
  ⟨fun _ _ _ => rfl, fun _ => rfl, fun _ _ => rfl⟩

end Fuser
